import Mathlib

/-!
Verification of the Green Mobility backend (`src/server.js`): an Express
server with in-memory `users` and `rides` arrays, four request handlers
(signup, login, publish ride, search rides) and a haversine distance
function used by the search.

Modelling conventions (shallow embedding):
* JavaScript values occurring in request bodies are modelled by `JSVal`:
  `undefined`, strings, and numbers.  A JS number is `Option ℚ` where
  `none` stands for `NaN` (request-level numbers are IEEE doubles, hence
  rational; infinities are not modelled, they occur in no request of
  interest).  Real-valued geometry uses `ℝ` with `Option` for `NaN`.
* `parseFloat` / `parseInt` are modelled faithfully on strings (leading
  whitespace, optional sign, longest numeric prefix, decimal point,
  exponent for `parseFloat`, hex prefix for `parseInt`); on a number
  argument they act via the decimal string round-trip, which is the
  identity for `parseFloat` and truncation toward zero for `parseInt`
  (exact for numbers in the ordinary decimal formatting range).
* `Number.prototype.toFixed(2)` returns a string in JS; the model keeps
  the numeric value it denotes, `round (x * 100) / 100`.
* `Date.now().toString()` and `new Date()` are passed in as an explicit
  `now` parameter by the handler caller.
-/

/-- A JavaScript value as it can occur in a parsed JSON body or query
string: `undefined` (absent field), a string, or a number
(`none` = `NaN`). -/
inductive JSVal where
  | undefined : JSVal
  | str : String → JSVal
  | num : Option ℚ → JSVal
deriving DecidableEq

/-- JS truthiness: `undefined`, `""`, `0` and `NaN` are falsy. -/
def truthy : JSVal → Bool
  | .undefined => false
  | .str s => !(s == "")
  | .num none => false
  | .num (some q) => !(q == 0)

/-- JS strict equality `===`: values of different types are never equal,
and `NaN === NaN` is false. -/
def jsEq : JSVal → JSVal → Bool
  | .undefined, .undefined => true
  | .str a, .str b => a == b
  | .num (some a), .num (some b) => a == b
  | _, _ => false

/-- Truthiness of an optional query-string parameter (absent or `""` is
falsy, as in `!lat`). -/
def truthyQ : Option String → Bool
  | none => false
  | some s => !(s == "")

/-- Numeric value of a decimal digit string, most significant first. -/
def digitsToNat (ds : List Char) : ℕ :=
  ds.foldl (fun n c => 10 * n + (c.toNat - 48)) 0

/-- Hexadecimal digit test, for `parseInt` with a `0x` prefix. -/
def isHexDigit (c : Char) : Bool :=
  c.isDigit || ('a' ≤ c && c ≤ 'f') || ('A' ≤ c && c ≤ 'F')

/-- Value of a hexadecimal digit. -/
def hexVal (c : Char) : ℕ :=
  if c.isDigit then c.toNat - 48
  else if 'a' ≤ c then c.toNat - 87
  else c.toNat - 55

/-- Numeric value of a hex digit string, most significant first. -/
def hexToNat (ds : List Char) : ℕ :=
  ds.foldl (fun n c => 16 * n + hexVal c) 0

/-- Exponent part of a `parseFloat` literal: the characters after
`e`/`E`.  JS ignores an exponent marker not followed by digits
(`parseFloat "1e" = 1`). -/
def parseExp (cs : List Char) : Option ℤ :=
  match cs with
  | '+' :: rest =>
      let ds := rest.takeWhile Char.isDigit
      if ds.isEmpty then none else some (digitsToNat ds : ℤ)
  | '-' :: rest =>
      let ds := rest.takeWhile Char.isDigit
      if ds.isEmpty then none else some (-(digitsToNat ds : ℤ))
  | rest =>
      let ds := rest.takeWhile Char.isDigit
      if ds.isEmpty then none else some (digitsToNat ds : ℤ)

/-- Exponent suffix of a numeric literal, when present. -/
def expOf (cs : List Char) : Option ℤ :=
  match cs with
  | 'e' :: rest => parseExp rest
  | 'E' :: rest => parseExp rest
  | _ => none

/-- Signed mantissa and exponent of a `parseFloat` literal, assembled as
one rational `sign·(ip.fp)·10^e`; `none` when no digit is found
(JS `NaN`).  The arithmetic is carried out in `ℤ`/`ℕ` and packed with a
single `mkRat` so that concrete parses reduce in the kernel. -/
def parseMantissa (sign : ℤ) (cs : List Char) : Option ℚ :=
  let ip := cs.takeWhile Char.isDigit
  let r1 := cs.dropWhile Char.isDigit
  let fp := match r1 with
    | '.' :: rest => rest.takeWhile Char.isDigit
    | _ => []
  let r2 := match r1 with
    | '.' :: rest => rest.dropWhile Char.isDigit
    | _ => r1
  if ip.isEmpty && fp.isEmpty then none
  else
    let n : ℤ := sign * ((digitsToNat ip * 10 ^ fp.length + digitsToNat fp : ℕ) : ℤ)
    match expOf r2 with
    | some e =>
        if 0 ≤ e then some (mkRat (n * ((10 ^ e.toNat : ℕ) : ℤ)) (10 ^ fp.length))
        else some (mkRat n (10 ^ fp.length * 10 ^ (-e).toNat))
    | none => some (mkRat n (10 ^ fp.length))

/-- JS `parseFloat` on a string: skip leading whitespace, optional sign,
longest numeric prefix; `none` is `NaN`. -/
def parseFloat (s : String) : Option ℚ :=
  let cs := s.toList.dropWhile Char.isWhitespace
  match cs with
  | '+' :: rest => parseMantissa 1 rest
  | '-' :: rest => parseMantissa (-1) rest
  | _ => parseMantissa 1 cs

/-- Unsigned part of `parseInt` (radix auto-detection: `0x`/`0X` prefix
means hexadecimal, otherwise decimal); `none` when no digit follows. -/
def parseIntDigits (cs : List Char) : Option ℕ :=
  match cs with
  | '0' :: 'x' :: rest =>
      let ds := rest.takeWhile isHexDigit
      if ds.isEmpty then none else some (hexToNat ds)
  | '0' :: 'X' :: rest =>
      let ds := rest.takeWhile isHexDigit
      if ds.isEmpty then none else some (hexToNat ds)
  | _ =>
      let ds := cs.takeWhile Char.isDigit
      if ds.isEmpty then none else some (digitsToNat ds)

/-- JS `parseInt` on a string: skip leading whitespace, optional sign,
longest integer prefix; `none` is `NaN`. -/
def parseInt (s : String) : Option ℤ :=
  let cs := s.toList.dropWhile Char.isWhitespace
  match cs with
  | '+' :: rest => (parseIntDigits rest).map Int.ofNat
  | '-' :: rest => (parseIntDigits rest).map (fun n => -(n : ℤ))
  | _ => (parseIntDigits cs).map Int.ofNat

/-- Truncation of a rational toward zero, the effect of `parseInt` on
the decimal rendering of a number. -/
def ratTrunc (q : ℚ) : ℤ :=
  q.num.tdiv q.den

/-- `parseFloat(x)` for a JS value `x`: a number round-trips through its
string rendering unchanged (`NaN` gives `NaN`), `undefined` renders as
`"undefined"` which does not parse. -/
def parseFloatVal : JSVal → Option ℚ
  | .undefined => none
  | .str s => parseFloat s
  | .num q => q

/-- `parseInt(x)` for a JS value `x`: on a number it truncates toward
zero via the decimal rendering; `NaN` and `undefined` give `NaN`. -/
def parseIntVal : JSVal → Option ℤ
  | .undefined => none
  | .str s => parseInt s
  | .num none => none
  | .num (some q) => some (ratTrunc q)

/-- A record of the in-memory `users` array (`POST /api/signup`):
`id` is `Date.now().toString()`, the other fields are stored request
values. -/
structure User where
  id : String
  email : JSVal
  password : JSVal
  name : JSVal
deriving DecidableEq

/-- A record of the in-memory `rides` array (`POST /api/rides`):
`userId` is the raw `token`, `lat`/`lng` are `parseFloat` results,
`passengers` is a `parseInt` result (`none` = `NaN`). -/
structure Ride where
  rideId : String
  userId : JSVal
  lat : Option ℚ
  lng : Option ℚ
  destination : JSVal
  transportMode : JSVal
  passengers : Option ℤ
  timestamp : String
deriving DecidableEq

/-- The two in-memory arrays of the server. -/
structure ServerState where
  users : List User
  rides : List Ride
deriving DecidableEq

/-- Response of `POST /api/signup`: 400, 409, or 201 with
`{user: {id, name}}`. -/
inductive SignupResp where
  | badRequest : SignupResp
  | conflict : SignupResp
  | created : String → JSVal → SignupResp
deriving DecidableEq

/-- Response of `POST /api/login`: 401, or 200 with
`{token, name}` (the token is the user id). -/
inductive LoginResp where
  | unauthorized : LoginResp
  | ok : String → JSVal → LoginResp
deriving DecidableEq

/-- Response of `POST /api/rides`: 400, or 201 with `{rideId}`. -/
inductive RidesResp where
  | badRequest : RidesResp
  | created : String → RidesResp
deriving DecidableEq

/-- `POST /api/signup` (`server.js` lines 62-89): validate presence of
all three fields, reject duplicate email with 409, otherwise append the
new user and answer 201. -/
def postSignup (st : ServerState) (now : String) (email password name : JSVal) :
    SignupResp × ServerState :=
  if !truthy email || !truthy password || !truthy name then
    (.badRequest, st)
  else
    match st.users.find? (fun u => jsEq u.email email) with
    | some _ => (.conflict, st)
    | none =>
        let newUser : User := { id := now, email := email, password := password, name := name }
        (.created newUser.id newUser.name, { st with users := st.users ++ [newUser] })

/-- `POST /api/login` (`server.js` lines 95-112): linear scan for a user
with matching email and password; 200 with `{token := user.id, name}`
on success, 401 otherwise. -/
def postLogin (st : ServerState) (email password : JSVal) :
    LoginResp × ServerState :=
  match st.users.find? (fun u => jsEq u.email email && jsEq u.password password) with
  | none => (.unauthorized, st)
  | some user => (.ok user.id user.name, st)

/-- `POST /api/rides` (`server.js` lines 120-142): validate truthiness
of `token`, `lat`, `lng`; append the parsed ride and answer 201 with its
id. -/
def postRides (st : ServerState) (now : String)
    (token lat lng transportMode passengers destination : JSVal) :
    RidesResp × ServerState :=
  if !truthy token || !truthy lat || !truthy lng then
    (.badRequest, st)
  else
    let rideRequest : Ride :=
      { rideId := now
        userId := token
        lat := parseFloatVal lat
        lng := parseFloatVal lng
        destination := destination
        transportMode := transportMode
        passengers := parseIntVal passengers
        timestamp := now }
    (.created rideRequest.rideId, { st with rides := st.rides ++ [rideRequest] })

/-- `deg2rad` (`server.js` lines 51-53): degrees to radians. -/
noncomputable def deg2rad (deg : ℝ) : ℝ :=
  deg * (Real.pi / 180)

/-- `Math.atan2(y, x)`: the usual quadrant-aware arctangent, with
`atan2 0 0 = 0` as for JS positive zeros. -/
noncomputable def atan2 (y x : ℝ) : ℝ :=
  if 0 < x then Real.arctan (y / x)
  else if x < 0 then
    (if 0 ≤ y then Real.arctan (y / x) + Real.pi else Real.arctan (y / x) - Real.pi)
  else
    (if 0 < y then Real.pi / 2 else if y < 0 then -(Real.pi / 2) else 0)

/-- `Math.sqrt`: `NaN` (`none`) on negative input. -/
noncomputable def jsSqrt (x : ℝ) : Option ℝ :=
  if x < 0 then none else some (Real.sqrt x)

/-- `getDistanceFromLatLonInKm` (`server.js` lines 39-49): haversine
great-circle distance with Earth radius 6371 km.  Arguments and result
are JS numbers (`none` = `NaN`, which propagates through `Math.sin`,
`Math.cos`, `Math.sqrt` and `Math.atan2`). -/
noncomputable def getDistanceFromLatLonInKm :
    Option ℝ → Option ℝ → Option ℝ → Option ℝ → Option ℝ
  | some lat1, some lon1, some lat2, some lon2 =>
      let dLat := deg2rad (lat2 - lat1)
      let dLon := deg2rad (lon2 - lon1)
      let a := Real.sin (dLat / 2) * Real.sin (dLat / 2) +
        Real.cos (deg2rad lat1) * Real.cos (deg2rad lat2) *
        Real.sin (dLon / 2) * Real.sin (dLon / 2)
      match jsSqrt a, jsSqrt (1 - a) with
      | some sa, some sb => some (6371 * (2 * atan2 sa sb))
      | _, _ => none
  | _, _, _, _ => none

/-- JS `<=` on numbers: false whenever either side is `NaN`. -/
noncomputable def jsLeB (x y : Option ℝ) : Bool :=
  match x, y with
  | some a, some b => decide (a ≤ b)
  | _, _ => false

/-- Distance from the parsed query point to a stored ride, as computed
by the search handler (query coordinates are `parseFloat` results,
ride coordinates were parsed at publish time). -/
noncomputable def rideDistance (qlat qlng : Option ℚ) (r : Ride) : Option ℝ :=
  getDistanceFromLatLonInKm (qlat.map (fun q => (q : ℝ))) (qlng.map (fun q => (q : ℝ)))
    (r.lat.map (fun q => (q : ℝ))) (r.lng.map (fun q => (q : ℝ)))

/-- The self-exclusion test of the search filter
(`userId && ride.userId === userId`): only a present, non-empty
`userId` query parameter excludes anything. -/
def isSelf (userId : Option String) (r : Ride) : Bool :=
  match userId with
  | some u => !(u == "") && jsEq r.userId (JSVal.str u)
  | none => false

/-- The filter of `GET /api/rides/search` (`server.js` lines 163-168):
drop the requester's own rides, keep rides within
`SEARCH_RADIUS_KM = 10.0`. -/
noncomputable def searchFilter (qlat qlng : Option ℚ) (userId : Option String)
    (rides : List Ride) : List Ride :=
  rides.filter fun r =>
    if isSelf userId r then false
    else jsLeB (rideDistance qlat qlng r) (some 10)

/-- `Number.prototype.toFixed(2)`, as the numeric value it denotes:
rounding to two decimal places (`NaN` stays `NaN`). -/
noncomputable def toFixed2 (x : Option ℝ) : Option ℝ :=
  x.map fun v => (round (v * 100) : ℝ) / 100

/-- An element of the `matches` array in the search response
(`server.js` lines 171-176). -/
structure MatchEntry where
  transportMode : JSVal
  destination : JSVal
  passengers : Option ℤ
  distanceKm : Option ℝ

/-- `responseMatches` entry for one matched ride: the stored fields plus
the recomputed, rounded distance. -/
noncomputable def mkMatch (qlat qlng : Option ℚ) (m : Ride) : MatchEntry :=
  { transportMode := m.transportMode
    destination := m.destination
    passengers := m.passengers
    distanceKm := toFixed2 (rideDistance qlat qlng m) }

/-- Response of `GET /api/rides/search`: 400, or 200 with the match
list. -/
inductive SearchResp where
  | badRequest : SearchResp
  | ok : List MatchEntry → SearchResp

/-- The match list of a search response (empty for a 400). -/
def matchesOf : SearchResp → List MatchEntry
  | .badRequest => []
  | .ok ms => ms

/-- `GET /api/rides/search` (`server.js` lines 149-179): require truthy
`lat` and `lng` query parameters, `parseFloat` them, filter the rides
and map them to annotated match entries. -/
noncomputable def searchRides (st : ServerState) (lat lng userId : Option String) :
    SearchResp :=
  if !truthyQ lat || !truthyQ lng then .badRequest
  else
    let userLat := parseFloat (lat.getD "")
    let userLng := parseFloat (lng.getD "")
    .ok ((searchFilter userLat userLng userId st.rides).map (mkMatch userLat userLng))

/-- The rides "owned by the querying user" in the sense of the spec: a
ride is the querying user's when the request names a requester `u` (the
optional `userId` parameter) and the ride's stored owner equals `u`. -/
def ownedByRequester (userId : Option String) (r : Ride) : Bool :=
  match userId with
  | some u => jsEq r.userId (JSVal.str u)
  | none => false

/-- A ride owned by user `"u1"`, located at latitude 1, longitude 2;
fixture for the search counterexample. -/
def cexRide : Ride :=
  ⟨"r1", JSVal.str "u1", some 1, some 2, JSVal.str "d", JSVal.str "DRIVER", some 1, "t"⟩

/-- A server state whose only ride is `cexRide`. -/
def cexState : ServerState :=
  ⟨[], [cexRide]⟩

example : parseFloat "1" = some 1 := by decide
example : parseFloat "abc" = none := by decide
example : parseFloat " -12.5e1" = some (mkRat (-125) 1) := by decide
example : parseFloat "12abc" = some 12 := by decide
example : parseInt "0x1A" = some 26 := by decide
example : parseInt "-42xyz" = some (-42) := by decide
example : parseInt "undefined" = none := by decide
example : truthy (.num (some 0)) = false := by decide

lemma deg2rad_zero : deg2rad 0 = 0 := by
  unfold deg2rad; ring

lemma atan2_zero_one : atan2 0 1 = 0 := by
  unfold atan2
  rw [if_pos one_pos]
  simp

/-- The haversine distance from a point to itself evaluates to `some 0`:
both half-angle sines vanish, so `a = 0`, `c = 2·atan2 0 1 = 0`. -/
lemma hav_dist_self (a b : ℝ) :
    getDistanceFromLatLonInKm (some a) (some b) (some a) (some b) = some 0 := by
  simp only [getDistanceFromLatLonInKm, sub_self, deg2rad_zero, zero_div, Real.sin_zero,
    mul_zero, zero_mul, add_zero, sub_zero]
  rw [jsSqrt, jsSqrt, if_neg (lt_irrefl 0), if_neg (by norm_num : ¬(1 : ℝ) < 0)]
  simp only [Real.sqrt_zero, Real.sqrt_one, atan2_zero_one, mul_zero]

/-- The operand `a` of the haversine formula is invariant under swapping
the two points. -/
lemma havA_comm (lat1 lon1 lat2 lon2 : ℝ) :
    Real.sin (deg2rad (lat2 - lat1) / 2) * Real.sin (deg2rad (lat2 - lat1) / 2) +
      Real.cos (deg2rad lat1) * Real.cos (deg2rad lat2) *
      Real.sin (deg2rad (lon2 - lon1) / 2) * Real.sin (deg2rad (lon2 - lon1) / 2) =
    Real.sin (deg2rad (lat1 - lat2) / 2) * Real.sin (deg2rad (lat1 - lat2) / 2) +
      Real.cos (deg2rad lat2) * Real.cos (deg2rad lat1) *
      Real.sin (deg2rad (lon1 - lon2) / 2) * Real.sin (deg2rad (lon1 - lon2) / 2) := by
  have h1 : deg2rad (lat1 - lat2) = -deg2rad (lat2 - lat1) := by unfold deg2rad; ring
  have h2 : deg2rad (lon1 - lon2) = -deg2rad (lon2 - lon1) := by unfold deg2rad; ring
  rw [h1, h2]
  simp only [neg_div, Real.sin_neg]
  ring

/-- The haversine distance is symmetric in its two points, also through
the `NaN` cases. -/
lemma hav_dist_comm (p q r s : Option ℝ) :
    getDistanceFromLatLonInKm p q r s = getDistanceFromLatLonInKm r s p q := by
  cases p <;> cases q <;> cases r <;> cases s <;>
    simp only [getDistanceFromLatLonInKm]
  rename_i x1 y1 x2 y2
  rw [havA_comm x1 y1 x2 y2]

/-- A `NaN` first coordinate makes the distance `NaN`. -/
lemma hav_dist_none_fst (q r s : Option ℝ) :
    getDistanceFromLatLonInKm none q r s = none := by
  cases q <;> cases r <;> cases s <;> rfl

/-- With the validation passed, the search response is the filtered,
annotated ride list at the parsed query coordinates. -/
lemma searchRides_eq (st : ServerState) (la ln : String) (userId : Option String)
    (h1 : la ≠ "") (h2 : ln ≠ "") :
    searchRides st (some la) (some ln) userId =
      .ok ((searchFilter (parseFloat la) (parseFloat ln) userId st.rides).map
        (mkMatch (parseFloat la) (parseFloat ln))) := by
  unfold searchRides
  simp [truthyQ, h1, h2]

/-- A ride located exactly at the parsed query point passes the radius
test of the search filter. -/
lemma jsLeB_dist_self (qla qln : ℚ) (r : Ride)
    (hlat : r.lat = some qla) (hlng : r.lng = some qln) :
    jsLeB (rideDistance (some qla) (some qln) r) (some 10) = true := by
  have hd : rideDistance (some qla) (some qln) r = some 0 := by
    unfold rideDistance
    rw [hlat, hlng]
    exact hav_dist_self (qla : ℝ) (qln : ℝ)
  rw [hd]
  unfold jsLeB
  rw [decide_eq_true_iff]
  norm_num

/-- C3 (amended): a signup request with any of email, password, name
missing or falsy is rejected with 400 and leaves the state unchanged;
with all three truthy, a duplicate email yields 409 with the state
unchanged, and otherwise the signup succeeds with 201 and exactly the
new user is appended to the user list. -/
theorem signup_status (st : ServerState) (now : String) (email password nm : JSVal) :
    (truthy email = false ∨ truthy password = false ∨ truthy nm = false →
      postSignup st now email password nm = (.badRequest, st)) ∧
    (truthy email = true → truthy password = true → truthy nm = true →
      ((∃ u ∈ st.users, jsEq u.email email = true) →
        postSignup st now email password nm = (.conflict, st)) ∧
      ((∀ u ∈ st.users, jsEq u.email email = false) →
        postSignup st now email password nm =
          (.created now nm, ⟨st.users ++ [⟨now, email, password, nm⟩], st.rides⟩))) := by
  constructor
  · intro h
    rcases h with h | h | h <;> simp [postSignup, h]
  · intro he hp hn
    constructor
    · rintro ⟨u, hu, hq⟩
      have hs : (st.users.find? fun v => jsEq v.email email).isSome :=
        List.find?_isSome.mpr ⟨u, hu, hq⟩
      cases hfind : st.users.find? fun v => jsEq v.email email with
      | none => rw [hfind] at hs; simp at hs
      | some v => simp [postSignup, he, hp, hn, hfind]
    · intro hnone
      have hfind : (st.users.find? fun v => jsEq v.email email) = none :=
        List.find?_eq_none.mpr fun x hx => by simp [hnone x hx]
      simp [postSignup, he, hp, hn, hfind]

/-- C3 fails as stated: a request with all three fields present whose
email duplicates a stored user is answered with 409 (conflict), not
201, so "signup with all fields present always succeeds" is false. -/
theorem signup_duplicate_full_request_conflict :
    postSignup ⟨[⟨"1", .str "a@b.c", .str "pw", .str "A"⟩], []⟩ "2"
        (.str "a@b.c") (.str "pw2") (.str "B") =
      (.conflict, ⟨[⟨"1", .str "a@b.c", .str "pw", .str "A"⟩], []⟩) := by
  decide

/-- Witness for `signup_status` at a concrete fresh signup. -/
theorem signup_status_witness :
    truthy (JSVal.str "a@b.c") = true ∧ truthy (JSVal.str "pw") = true ∧
      truthy (JSVal.str "A") = true ∧
      (∀ u ∈ ([] : List User), jsEq u.email (JSVal.str "a@b.c") = false) ∧
      postSignup ⟨[], []⟩ "1" (.str "a@b.c") (.str "pw") (.str "A") =
        (.created "1" (.str "A"),
          ⟨[] ++ [⟨"1", .str "a@b.c", .str "pw", .str "A"⟩], []⟩) :=
  ⟨by decide, by decide, by decide, by decide,
    ((signup_status ⟨[], []⟩ "1" (.str "a@b.c") (.str "pw") (.str "A")).2
      (by decide) (by decide) (by decide)).2 (by decide)⟩

/-- C5: login leaves the user list unchanged; when some stored user has
exactly the given email and password the response is 200 with that
user's id as token and that user's name, otherwise it is 401. -/
theorem login_status (st : ServerState) (email password : JSVal) :
    (postLogin st email password).2 = st ∧
    ((∃ u ∈ st.users, jsEq u.email email = true ∧ jsEq u.password password = true) →
      ∃ u ∈ st.users, jsEq u.email email = true ∧ jsEq u.password password = true ∧
        (postLogin st email password).1 = .ok u.id u.name) ∧
    ((∀ u ∈ st.users, jsEq u.email email = false ∨ jsEq u.password password = false) →
      (postLogin st email password).1 = .unauthorized) := by
  refine ⟨?_, ?_, ?_⟩
  · cases hfind : st.users.find? fun u => jsEq u.email email && jsEq u.password password <;>
      simp [postLogin, hfind]
  · rintro ⟨u, hu, he, hp⟩
    have hs : (st.users.find? fun u => jsEq u.email email && jsEq u.password password).isSome :=
      List.find?_isSome.mpr ⟨u, hu, by simp [he, hp]⟩
    cases hfind : st.users.find? fun u => jsEq u.email email && jsEq u.password password with
    | none => rw [hfind] at hs; simp at hs
    | some v =>
        have hv := List.find?_some hfind
        rw [Bool.and_eq_true] at hv
        exact ⟨v, List.mem_of_find?_eq_some hfind, hv.1, hv.2, by simp [postLogin, hfind]⟩
  · intro h
    have hfind : (st.users.find? fun u => jsEq u.email email && jsEq u.password password) = none :=
      List.find?_eq_none.mpr fun x hx => by rcases h x hx with h1 | h1 <;> simp [h1]
    simp [postLogin, hfind]

/-- Witness for `login_status` at a concrete state with one matching
user. -/
theorem login_status_witness :
    (∃ u ∈ ([⟨"7", JSVal.str "e", JSVal.str "p", JSVal.str "N"⟩] : List User),
        jsEq u.email (JSVal.str "e") = true ∧ jsEq u.password (JSVal.str "p") = true) ∧
    (∃ u ∈ ([⟨"7", JSVal.str "e", JSVal.str "p", JSVal.str "N"⟩] : List User),
        jsEq u.email (JSVal.str "e") = true ∧ jsEq u.password (JSVal.str "p") = true ∧
        (postLogin ⟨[⟨"7", JSVal.str "e", JSVal.str "p", JSVal.str "N"⟩], []⟩
          (.str "e") (.str "p")).1 = .ok u.id u.name) :=
  ⟨by decide,
    (login_status ⟨[⟨"7", JSVal.str "e", JSVal.str "p", JSVal.str "N"⟩], []⟩
      (.str "e") (.str "p")).2.1 (by decide)⟩

/-- C4 (amended): a publish request whose token, lat and lng are all
supplied with truthy values is answered 201 with the new ride id and
exactly that ride appended; when any of them is missing or falsy the
response is 400 and the ride list is unchanged. -/
theorem publish_status (st : ServerState) (now : String)
    (token lat lng transportMode passengers destination : JSVal) :
    (truthy token = true → truthy lat = true → truthy lng = true →
      postRides st now token lat lng transportMode passengers destination =
        (.created now,
          ⟨st.users, st.rides ++
            [⟨now, token, parseFloatVal lat, parseFloatVal lng, destination,
              transportMode, parseIntVal passengers, now⟩]⟩)) ∧
    (truthy token = false ∨ truthy lat = false ∨ truthy lng = false →
      postRides st now token lat lng transportMode passengers destination =
        (.badRequest, st)) := by
  constructor
  · intro ht hla hln
    simp [postRides, ht, hla, hln]
  · intro h
    rcases h with h | h | h <;> simp [postRides, h]

/-- C4 fails as stated: latitude 0 is a supplied value, yet the request
is rejected with 400 because `!lat` is true for the number 0. -/
theorem publish_lat_zero_rejected :
    postRides ⟨[], []⟩ "9" (.str "tok") (.num (some 0)) (.num (some 5))
        (.str "DRIVER") (.str "2") (.str "dest") = (.badRequest, ⟨[], []⟩) ∧
    JSVal.num (some 0) ≠ JSVal.undefined :=
  ⟨by decide, by decide⟩

/-- Witness for `publish_status` at a concrete valid publish. -/
theorem publish_status_witness :
    truthy (JSVal.str "t") = true ∧ truthy (JSVal.num (some 1)) = true ∧
      truthy (JSVal.num (some 2)) = true ∧
      postRides ⟨[], []⟩ "5" (.str "t") (.num (some 1)) (.num (some 2))
          (.str "DRIVER") (.str "3") (.str "d") =
        (.created "5",
          ⟨[], [] ++ [⟨"5", .str "t", parseFloatVal (.num (some 1)),
            parseFloatVal (.num (some 2)), .str "d", .str "DRIVER",
            parseIntVal (.str "3"), "5"⟩]⟩) :=
  ⟨by decide, by decide, by decide,
    (publish_status ⟨[], []⟩ "5" (.str "t") (.num (some 1)) (.num (some 2))
      (.str "DRIVER") (.str "3") (.str "d")).1 (by decide) (by decide) (by decide)⟩

/-- C9 (amended): when a publish request passes validation and its
passengers field parses to an integer `n`, the appended ride records
passengers `n`; a non-parsing passengers field records `NaN`. -/
theorem passengers_integer_when_parsed (st : ServerState) (now : String)
    (token lat lng transportMode passengers destination : JSVal) (n : ℤ)
    (ht : truthy token = true) (hla : truthy lat = true) (hln : truthy lng = true)
    (hp : parseIntVal passengers = some n) :
    ∃ r : Ride,
      (postRides st now token lat lng transportMode passengers destination).2.rides =
        st.rides ++ [r] ∧ r.passengers = some n := by
  refine ⟨⟨now, token, parseFloatVal lat, parseFloatVal lng, destination, transportMode,
    parseIntVal passengers, now⟩, ?_, by simp [hp]⟩
  simp [postRides, ht, hla, hln]

/-- C9 fails as stated: a publish request that passes validation but
supplies no passengers field stores `NaN` (`none`), not an integer. -/
theorem passengers_nan_on_missing_field :
    ((postRides ⟨[], []⟩ "7" (.str "t") (.num (some 1)) (.num (some 2))
        (.str "DRIVER") .undefined (.str "d")).2.rides.map Ride.passengers) = [none] := by
  decide

/-- Witness for `passengers_integer_when_parsed` at a concrete publish
whose passengers field is the string `"3"`. -/
theorem passengers_integer_when_parsed_witness :
    truthy (JSVal.str "t") = true ∧ parseIntVal (JSVal.str "3") = some 3 ∧
      (∃ r : Ride,
        (postRides ⟨[], []⟩ "8" (.str "t") (.num (some 1)) (.num (some 2))
            (.str "RIDER") (.str "3") (.str "d")).2.rides = [] ++ [r] ∧
        r.passengers = some 3) :=
  ⟨by decide, by decide,
    passengers_integer_when_parsed ⟨[], []⟩ "8" (.str "t") (.num (some 1)) (.num (some 2))
      (.str "RIDER") (.str "3") (.str "d") 3 (by decide) (by decide) (by decide) (by decide)⟩

/-- C6: the haversine distance function is symmetric in its two
points. -/
theorem distance_symmetric (lat1 lon1 lat2 lon2 : Option ℝ) :
    getDistanceFromLatLonInKm lat1 lon1 lat2 lon2 =
      getDistanceFromLatLonInKm lat2 lon2 lat1 lon1 :=
  hav_dist_comm lat1 lon1 lat2 lon2

/-- C7: the haversine distance from a point to itself is 0. -/
theorem distance_self_zero (lat lng : ℝ) :
    getDistanceFromLatLonInKm (some lat) (some lng) (some lat) (some lng) = some 0 :=
  hav_dist_self lat lng

/-- C1: for a query whose coordinates parse and whose `userId`, when
present, is non-empty, the search response is exactly the stored rides
whose haversine distance from the query point is at most 10 km, minus
the rides owned by the querying user, each annotated by `mkMatch`. -/
theorem search_matches_radius_minus_own (st : ServerState)
    (la ln : String) (userId : Option String) (qla qln : ℚ)
    (h1 : la ≠ "") (h2 : ln ≠ "")
    (hla : parseFloat la = some qla) (hln : parseFloat ln = some qln)
    (hu : userId ≠ some "") :
    searchRides st (some la) (some ln) userId =
      .ok (((st.rides.filter fun r =>
          jsLeB (rideDistance (some qla) (some qln) r) (some 10)).filter
            (fun r => !ownedByRequester userId r)).map
        (mkMatch (some qla) (some qln))) := by
  rw [searchRides_eq st la ln userId h1 h2, hla, hln]
  congr 1
  rw [List.filter_filter]
  unfold searchFilter
  congr 1
  apply List.filter_congr
  intro r _
  have hself : isSelf userId r = ownedByRequester userId r := by
    cases userId with
    | none => rfl
    | some u =>
        have hu2 : u ≠ "" := fun he => hu (by rw [he])
        simp [isSelf, ownedByRequester, hu2]
  cases howned : ownedByRequester userId r <;> simp [hself, howned]

/-- Witness for `search_matches_radius_minus_own` on a state with an
in-range foreign ride and an out-of-range own ride. -/
theorem search_matches_radius_minus_own_witness :
    ("1" : String) ≠ "" ∧ parseFloat "1" = some 1 ∧ parseFloat "2" = some 2 ∧
      (some "me" : Option String) ≠ some "" ∧
      searchRides
          ⟨[], [⟨"a", .str "alice", some 1, some 2, .str "d1", .str "DRIVER", some 1, "t"⟩,
                ⟨"b", .str "me", some 50, some 60, .str "d2", .str "RIDER", some 2, "t"⟩]⟩
          (some "1") (some "2") (some "me") =
        .ok ((((⟨[], [⟨"a", .str "alice", some 1, some 2, .str "d1", .str "DRIVER", some 1, "t"⟩,
                ⟨"b", .str "me", some 50, some 60, .str "d2", .str "RIDER", some 2, "t"⟩]⟩ :
            ServerState).rides.filter fun r =>
            jsLeB (rideDistance (some 1) (some 2) r) (some 10)).filter
              (fun r => !ownedByRequester (some "me") r)).map
          (mkMatch (some 1) (some 2))) :=
  ⟨by decide, by decide, by decide, by decide,
    search_matches_radius_minus_own
      ⟨[], [⟨"a", .str "alice", some 1, some 2, .str "d1", .str "DRIVER", some 1, "t"⟩,
            ⟨"b", .str "me", some 50, some 60, .str "d2", .str "RIDER", some 2, "t"⟩]⟩
      "1" "2" (some "me") 1 2 (by decide) (by decide) (by decide) (by decide) (by decide)⟩

/-- C2 (amended): a ride lying exactly at the parsed query point is
included in the search results provided it is not the requester's own
ride; a ride owned by the requester is excluded from the matched set
regardless of its distance. -/
theorem search_inclusion_exclusion (st : ServerState)
    (la ln : String) (userId : Option String) (qla qln : ℚ) (r : Ride)
    (h1 : la ≠ "") (h2 : ln ≠ "")
    (hla : parseFloat la = some qla) (hln : parseFloat ln = some qln)
    (hr : r ∈ st.rides) :
    (r.lat = some qla → r.lng = some qln → isSelf userId r = false →
      mkMatch (some qla) (some qln) r ∈
        matchesOf (searchRides st (some la) (some ln) userId)) ∧
    (isSelf userId r = true →
      r ∉ searchFilter (some qla) (some qln) userId st.rides) := by
  constructor
  · intro hlat hlng hnotself
    rw [searchRides_eq st la ln userId h1 h2, hla, hln]
    simp only [matchesOf]
    apply List.mem_map_of_mem
    apply List.mem_filter.mpr
    refine ⟨hr, ?_⟩
    rw [hnotself]
    simpa using jsLeB_dist_self qla qln r hlat hlng
  · intro hself hmem
    have h := (List.mem_filter.mp hmem).2
    rw [hself] at h
    simp at h

/-- Witness for `search_inclusion_exclusion`: a foreign ride at the
query point, with the requester identified as someone else. -/
theorem search_inclusion_exclusion_witness :
    ("1" : String) ≠ "" ∧ parseFloat "1" = some 1 ∧ parseFloat "2" = some 2 ∧
      (⟨"a", .str "alice", some 1, some 2, .str "d1", .str "DRIVER", some 1, "t"⟩ : Ride) ∈
        (⟨[], [⟨"a", .str "alice", some 1, some 2, .str "d1", .str "DRIVER", some 1, "t"⟩]⟩ :
          ServerState).rides ∧
      (((⟨"a", .str "alice", some 1, some 2, .str "d1", .str "DRIVER", some 1, "t"⟩ : Ride).lat
          = some 1 →
        (⟨"a", .str "alice", some 1, some 2, .str "d1", .str "DRIVER", some 1, "t"⟩ : Ride).lng
          = some 2 →
        isSelf (some "me") ⟨"a", .str "alice", some 1, some 2, .str "d1", .str "DRIVER", some 1, "t"⟩
          = false →
        mkMatch (some 1) (some 2)
            ⟨"a", .str "alice", some 1, some 2, .str "d1", .str "DRIVER", some 1, "t"⟩ ∈
          matchesOf (searchRides
            ⟨[], [⟨"a", .str "alice", some 1, some 2, .str "d1", .str "DRIVER", some 1, "t"⟩]⟩
            (some "1") (some "2") (some "me"))) ∧
      (isSelf (some "me") ⟨"a", .str "alice", some 1, some 2, .str "d1", .str "DRIVER", some 1, "t"⟩
          = true →
        (⟨"a", .str "alice", some 1, some 2, .str "d1", .str "DRIVER", some 1, "t"⟩ : Ride) ∉
          searchFilter (some 1) (some 2) (some "me")
            (⟨[], [⟨"a", .str "alice", some 1, some 2, .str "d1", .str "DRIVER", some 1, "t"⟩]⟩ :
              ServerState).rides)) :=
  ⟨by decide, by decide, by decide, by decide,
    search_inclusion_exclusion
      ⟨[], [⟨"a", .str "alice", some 1, some 2, .str "d1", .str "DRIVER", some 1, "t"⟩]⟩
      "1" "2" (some "me") 1 2
      ⟨"a", .str "alice", some 1, some 2, .str "d1", .str "DRIVER", some 1, "t"⟩
      (by decide) (by decide) (by decide) (by decide) (by decide)⟩

/-- C2 fails as stated: `cexRide` sits exactly at the query point
(1, 2) but is owned by the requester `"u1"`, and the search returns no
matches at all, so "a ride exactly at the requester's location is
always included" is false. -/
theorem own_colocated_ride_not_included :
    cexRide ∈ cexState.rides ∧ cexRide.lat = some 1 ∧ cexRide.lng = some 2 ∧
      parseFloat "1" = some 1 ∧ parseFloat "2" = some 2 ∧
      searchRides cexState (some "1") (some "2") (some "u1") = .ok [] := by
  refine ⟨by decide, by decide, by decide, by decide, by decide, ?_⟩
  rw [searchRides_eq cexState "1" "2" (some "u1") (by decide) (by decide)]
  have hself : isSelf (some "u1") cexRide = true := by decide
  have hf : searchFilter (parseFloat "1") (parseFloat "2") (some "u1") cexState.rides = [] := by
    unfold searchFilter cexState
    rw [List.filter_cons]
    simp [hself]
  rw [hf]
  rfl

/-- C8: every entry of a search response exposes the matched ride's
transport mode, destination and passenger count, together with the
haversine distance from the query point rounded to two decimals. -/
theorem search_entries_expose_ride_fields (st : ServerState) (la ln : String)
    (userId : Option String) (qla qln : ℚ)
    (h1 : la ≠ "") (h2 : ln ≠ "")
    (hla : parseFloat la = some qla) (hln : parseFloat ln = some qln) :
    ∀ e ∈ matchesOf (searchRides st (some la) (some ln) userId),
      ∃ r ∈ st.rides,
        e.transportMode = r.transportMode ∧ e.destination = r.destination ∧
        e.passengers = r.passengers ∧
        e.distanceKm = toFixed2 (rideDistance (some qla) (some qln) r) := by
  rw [searchRides_eq st la ln userId h1 h2, hla, hln]
  intro e he
  simp only [matchesOf] at he
  rcases List.mem_map.mp he with ⟨r, hrf, rfl⟩
  exact ⟨r, List.mem_of_mem_filter hrf, rfl, rfl, rfl, rfl⟩

/-- Witness for `search_entries_expose_ride_fields` at a concrete
query. -/
theorem search_entries_expose_ride_fields_witness :
    ("3" : String) ≠ "" ∧ parseFloat "3" = some 3 ∧ parseFloat "4" = some 4 ∧
      ∀ e ∈ matchesOf (searchRides
          ⟨[], [⟨"a", .str "alice", some 3, some 4, .str "d1", .str "DRIVER", some 1, "t"⟩]⟩
          (some "3") (some "4") none),
        ∃ r ∈ (⟨[], [⟨"a", .str "alice", some 3, some 4, .str "d1", .str "DRIVER", some 1, "t"⟩]⟩ :
            ServerState).rides,
          e.transportMode = r.transportMode ∧ e.destination = r.destination ∧
          e.passengers = r.passengers ∧
          e.distanceKm = toFixed2 (rideDistance (some 3) (some 4) r) :=
  ⟨by decide, by decide, by decide,
    search_entries_expose_ride_fields
      ⟨[], [⟨"a", .str "alice", some 3, some 4, .str "d1", .str "DRIVER", some 1, "t"⟩]⟩
      "3" "4" none 3 4 (by decide) (by decide) (by decide) (by decide)⟩

/-- C10: when `lat` and `lng` are present (truthy) but do not parse as
numbers, the search answers 200 with an empty match list: the `NaN`
distance fails the radius comparison for every stored ride. -/
theorem search_nonnumeric_coords_empty_ok (st : ServerState) (la ln : String)
    (userId : Option String) (h1 : la ≠ "") (h2 : ln ≠ "")
    (hla : parseFloat la = none) (hln : parseFloat ln = none) :
    searchRides st (some la) (some ln) userId = .ok [] := by
  rw [searchRides_eq st la ln userId h1 h2, hla, hln]
  have hf : searchFilter none none userId st.rides = [] := by
    unfold searchFilter
    apply List.filter_eq_nil_iff.mpr
    intro r _
    have hd : rideDistance none none r = none := by
      unfold rideDistance
      exact hav_dist_none_fst _ _ _
    cases h : isSelf userId r <;> simp [h, hd, jsLeB]
  rw [hf]
  rfl

/-- Witness for `search_nonnumeric_coords_empty_ok` on a nonempty ride
list. -/
theorem search_nonnumeric_coords_empty_ok_witness :
    ("abc" : String) ≠ "" ∧ parseFloat "abc" = none ∧ parseFloat "xyz" = none ∧
      searchRides
          ⟨[], [⟨"a", .str "alice", some 1, some 2, .str "d1", .str "DRIVER", some 1, "t"⟩]⟩
          (some "abc") (some "xyz") none = .ok [] :=
  ⟨by decide, by decide, by decide,
    search_nonnumeric_coords_empty_ok
      ⟨[], [⟨"a", .str "alice", some 1, some 2, .str "d1", .str "DRIVER", some 1, "t"⟩]⟩
      "abc" "xyz" none (by decide) (by decide) (by decide) (by decide)⟩
